import Mathlib

/-
Verification of the HTTP/3 adaptation layer
(`mitmproxy/proxy/layers/http/_http3.py`).

The file shallowly embeds `Http3Connection._handle_event`,
`Http3Connection.done`, and `Http3Client._handle_event`.  External
collaborators that are not part of the measured source (the
`LayeredH3Connection` wire adapter, the header formatting/parsing helpers
from the HTTP/2 layer, `format_error`, `error_code_to_str`,
`get_connection_error`, the version string) are modelled as explicit
oracle state / oracle fields of the events, as documented on each
definition.
-/

namespace Http3

/-! ### Constants

Numeric constants from `mitmproxy.net.http.status_codes` and
`aioquic.h3.connection.ErrorCode` (external modules; the values below are
the actual constants of those libraries). -/

/-- Generic status code `status_codes.CLIENT_CLOSED_REQUEST`. -/
def CLIENT_CLOSED_REQUEST : Nat := 499

/-- Generic status code `status_codes.NO_RESPONSE`, the sentinel "no
response" value. -/
def NO_RESPONSE : Nat := 444

/-- `H3ErrorCode.H3_GENERAL_PROTOCOL_ERROR` (0x0101). -/
def H3_GENERAL_PROTOCOL_ERROR : Nat := 0x0101

/-- `H3ErrorCode.H3_INTERNAL_ERROR` (0x0102). -/
def H3_INTERNAL_ERROR : Nat := 0x0102

/-- `H3ErrorCode.H3_REQUEST_CANCELLED` (0x010C). -/
def H3_REQUEST_CANCELLED : Nat := 0x010C

/-- Modelled from the spec: `version.MITMPROXY` is an external
proxy-identification string; its exact value is irrelevant here. -/
def MITMPROXY : String := "mitmproxy"

/-- Modelled from the spec: `error_code_to_str` from the QUIC layer (not in
the measured source) renders an error code's symbolic name. -/
def error_code_to_str (e : Nat) : String :=
  if e = H3_REQUEST_CANCELLED then "H3_REQUEST_CANCELLED"
  else if e = H3_INTERNAL_ERROR then "H3_INTERNAL_ERROR"
  else if e = H3_GENERAL_PROTOCOL_ERROR then "H3_GENERAL_PROTOCOL_ERROR"
  else "unknown error code"

/-- Modelled from the spec: `format_error` from `_base` (not in the
measured source) builds a short formatted HTML error body containing the
code and message. -/
def format_error (code : Nat) (message : String) : String :=
  s!"<html><head><title>{code}</title></head><body>{code}: {message}</body></html>"

/-! ### Event and command model -/

/-- Whether a generic HTTP event is Request-flavored (`RequestData`, ...)
or Response-flavored (`ResponseData`, ...). -/
inductive Flavor
  | request
  | response
deriving DecidableEq

/-- A generic HTTP event (`HttpEvent` variants from the `.` package):
Data, Headers, Trailers, EndOfMessage, ProtocolError, each carrying a
stream id.  The Request/Response payload of a Headers event is modelled by
the formatted wire header list it corresponds to (the
`format_h2_*_headers` / `parse_h2_*_headers` helpers are external and are
abstracted as carrying the list through). -/
inductive HttpEv
  | data (stream_id : Nat) (flavor : Flavor) (bytes : String)
  | headers (stream_id : Nat) (flavor : Flavor) (end_stream : Bool)
      (hdrs : List (String × String))
  | trailers (stream_id : Nat) (flavor : Flavor)
      (fields : List (String × String))
  | endOfMessage (stream_id : Nat) (flavor : Flavor)
  | protocolError (stream_id : Nat) (flavor : Flavor) (code : Nat)
      (message : String)
deriving DecidableEq

/-- `event.stream_id`. -/
def HttpEv.streamId : HttpEv → Nat
  | .data sid _ _ => sid
  | .headers sid _ _ _ => sid
  | .trailers sid _ _ => sid
  | .endOfMessage sid _ => sid
  | .protocolError sid _ _ _ => sid

/-- `event.stream_id = n` (the in-place mutation performed by
`Http3Client._handle_event`). -/
def HttpEv.setStreamId : HttpEv → Nat → HttpEv
  | .data _ fl b, n => .data n fl b
  | .headers _ fl es h, n => .headers n fl es h
  | .trailers _ fl f, n => .trailers n fl f
  | .endOfMessage _ fl, n => .endOfMessage n fl
  | .protocolError _ fl c m, n => .protocolError n fl c m

/-- A buffered operation on the H3 wire adapter (`LayeredH3Connection`
send-side API: `send_data`, `send_headers`, `send_trailers`,
`end_stream`, `reset_stream`, `close_connection`). -/
inductive WireCmd
  | sendData (stream_id : Nat) (bytes : String) (end_stream : Bool)
  | sendHeaders (stream_id : Nat) (hdrs : List (String × String))
      (end_stream : Bool)
  | sendTrailers (stream_id : Nat) (fields : List (String × String))
  | endStream (stream_id : Nat)
  | resetStream (stream_id : Nat) (error_code : Nat)
  | closeConnection (error_code : Nat) (reason_phrase : String)
deriving DecidableEq

/-- A demultiplexed H3 wire event, as produced by the adapter's
`handle_event` (`HeadersReceived`, `DataReceived`, `TrailersReceived`,
`StreamReset`, or any other unsupported shape).  Since the
`parse_h2_*_headers` helpers are external, the outcome of header parsing
is an oracle field of the event: `parse_error = some e` models the helper
raising `ValueError(e)`. -/
inductive H3WireEvent
  | headersReceived (stream_id : Nat) (push_id : Option Nat)
      (hdrs : List (String × String)) (parse_error : Option String)
      (stream_ended : Bool)
  | dataReceived (stream_id : Nat) (push_id : Option Nat) (bytes : String)
      (stream_ended : Bool)
  | trailersReceived (stream_id : Nat) (push_id : Option Nat)
      (fields : List (String × String)) (stream_ended : Bool)
  | streamReset (stream_id : Nat) (push_id : Option Nat) (error_code : Nat)
  | unsupported (push_id : Option Nat)
deriving DecidableEq

/-- The push id carried by a wire event. -/
def H3WireEvent.pushId : H3WireEvent → Option Nat
  | .headersReceived _ p _ _ _ => p
  | .dataReceived _ p _ _ => p
  | .trailersReceived _ p _ _ => p
  | .streamReset _ p _ => p
  | .unsupported p => p

/-- An effect produced by one dispatch: a `commands.Log`, a `ReceiveHttp`
wrapping an inbound generic event, or a wire transmission produced by the
adapter's `transmit` flush. -/
inductive Command
  | log (message : String)
  | receiveHttp (event : HttpEv)
  | send (w : WireCmd)
deriving DecidableEq

/-- Payload of `get_connection_error` (external QUIC-layer query): the
peer's close information, when one was recorded. -/
structure ConnCloseInfo where
  error_code : Nat
  reason_phrase : String
deriving DecidableEq

/-- An event delivered to the layer: `events.Start`, an outbound
`HttpEvent`, a `QuicStreamEvent` (modelled as already demultiplexed by the
adapter into its list of H3 wire events), `events.ConnectionClosed`
(carrying the `get_connection_error` oracle answer), or any other
unexpected event shape. -/
inductive Event
  | start
  | http (e : HttpEv)
  | quicStream (wireEvents : List H3WireEvent)
  | connectionClosed (close : Option ConnCloseInfo)
  | other
deriving DecidableEq

/-- Whether `Http3Connection.done` accepts the event
(`@expect(QuicStreamEvent, HttpEvent, events.ConnectionClosed)`). -/
def Event.expected : Event → Bool
  | .http _ => true
  | .quicStream _ => true
  | .connectionClosed _ => true
  | _ => false

/-- Dispatch failure: `AssertionError` for unexpected event shapes,
`KeyError` for a failing stream-id map lookup. -/
inductive Err
  | assertionError
  | keyError
deriving DecidableEq

/-! ### The wire adapter state

Modelled from the spec: `LayeredH3Connection` (`_http_h3.py`, not in the
measured source) is the H3 wire adapter.  Its queries (`has_ended`,
`has_sent_headers`, `get_reserved_stream_ids`,
`get_next_available_stream_id`) are oracle fields; its send operations
append to a transmission buffer that `transmit` flushes; whether a send on
a given stream raises `H3FrameUnexpected` ("frame sent in an invalid
stream state") is an oracle predicate on the stream id. -/
structure H3Conn where
  hasEnded : Nat → Bool
  hasSentHeaders : Nat → Bool
  frameUnexpected : Nat → Bool
  reservedStreamIds : List Nat
  nextAvailableStreamId : Nat
  buffer : List WireCmd

/-- A buffered send on stream `sid`: raises `H3FrameUnexpected` when the
stream's state forbids the frame, otherwise appends to the buffer. -/
def H3Conn.sendOn (c : H3Conn) (sid : Nat) (w : WireCmd) :
    Except String H3Conn :=
  if c.frameUnexpected sid then .error "H3FrameUnexpected"
  else .ok { c with buffer := c.buffer ++ [w] }

/-- `transmit`: flush the buffered wire output into transmission
commands. -/
def H3Conn.transmit (c : H3Conn) : H3Conn × List Command :=
  ({ c with buffer := [] }, c.buffer.map Command.send)

/-- Modelled from the spec: `get_next_available_stream_id` allocates the
next available stream id (always bidirectional here, since the caller
passes no `is_unidirectional` flag); allocation reserves the id, so later
allocations return fresh ids (client-initiated bidirectional QUIC stream
ids advance in steps of 4). -/
def H3Conn.get_next_available_stream_id (c : H3Conn)
    (_is_unidirectional : Bool) : Nat × H3Conn :=
  (c.nextAvailableStreamId,
   { c with nextAvailableStreamId := c.nextAvailableStreamId + 4 })

/-! ### Role configuration

`Http3Connection` binds four class-level event-type fields per role; the
engine's behaviour depends on them only through the receive flavor and the
class-level default `code` of `ReceiveProtocolError` (defined outside the
measured source, hence kept as a parameter). -/

structure RoleConfig where
  flavor : Flavor
  defaultErrorCode : Nat
deriving DecidableEq

/-! ### Error code maps -/

/-- The outbound map of `_handle_event`'s ProtocolError branch:
`{CLIENT_CLOSED_REQUEST: H3_REQUEST_CANCELLED}.get(code, H3_INTERNAL_ERROR)`. -/
def statusToH3 (s : Nat) : Nat :=
  if s = CLIENT_CLOSED_REQUEST then H3_REQUEST_CANCELLED
  else H3_INTERNAL_ERROR

/-- The inbound map of the StreamReset branch:
`{H3_REQUEST_CANCELLED: CLIENT_CLOSED_REQUEST}.get(error_code, ReceiveProtocolError.code)`. -/
def h3ToStatus (defaultCode : Nat) (e : Nat) : Nat :=
  if e = H3_REQUEST_CANCELLED then CLIENT_CLOSED_REQUEST
  else defaultCode

/-! ### The engine -/

/-- Engine state: the wire adapter plus the lifecycle flag (the source
rebinds `self._handle_event = self.done` on close; following the spec's
design note this is an explicit Active/Closed flag). -/
structure EngineState where
  h3 : H3Conn
  closed : Bool

/-- The `try` body of the outbound-`HttpEvent` branch of
`Http3Connection._handle_event` (source lines 66-107): one send operation
per event shape; the ProtocolError shape consults `has_ended`,
`has_sent_headers` and the sentinel code to choose between a synthesized
error response and a raw reset. -/
def sendHttpEvent (c : H3Conn) (e : HttpEv) : Except String H3Conn :=
  match e with
  | .data sid _ bytes => c.sendOn sid (.sendData sid bytes false)
  | .headers sid _ ends hdrs => c.sendOn sid (.sendHeaders sid hdrs ends)
  | .trailers sid _ fields => c.sendOn sid (.sendTrailers sid fields)
  | .endOfMessage sid _ => c.sendOn sid (.endStream sid)
  | .protocolError sid fl code msg =>
    if c.hasEnded sid then .ok c
    else
      if fl = Flavor.response ∧ c.hasSentHeaders sid = false ∧
          code ≠ NO_RESPONSE then
        match c.sendOn sid (.sendHeaders sid
            [(":status", toString code), ("server", MITMPROXY),
             ("content-type", "text/html")] false) with
        | .error m => .error m
        | .ok c₁ =>
          c₁.sendOn sid (.sendData sid (format_error code msg) true)
      else
        c.sendOn sid (.resetStream sid (statusToH3 code))

/-- One demultiplexed wire event of the `QuicStreamEvent` branch (source
lines 119-156). -/
def handleWireEvent (role : RoleConfig) (c : H3Conn) (we : H3WireEvent) :
    H3Conn × List Command :=
  match we with
  | .streamReset sid none ec =>
    (c, [Command.receiveHttp (.protocolError sid role.flavor
          (h3ToStatus role.defaultErrorCode ec)
          s!"stream reset by client ({error_code_to_str ec})")])
  | .dataReceived sid none bytes ended =>
    (c, (if bytes ≠ "" then
           [Command.receiveHttp (.data sid role.flavor bytes)]
         else []) ++
        (if ended then
           [Command.receiveHttp (.endOfMessage sid role.flavor)]
         else []))
  | .headersReceived sid none hdrs parseErr ended =>
    match parseErr with
    | some m =>
      let c₁ : H3Conn := { c with buffer := c.buffer ++
        [WireCmd.closeConnection H3_GENERAL_PROTOCOL_ERROR
          s!"Invalid HTTP/3 request headers: {m}"] }
      c₁.transmit
    | none =>
      (c, [Command.receiveHttp (.headers sid role.flavor ended hdrs)] ++
          (if ended then
             [Command.receiveHttp (.endOfMessage sid role.flavor)]
           else []))
  | .trailersReceived sid none fields ended =>
    (c, [Command.receiveHttp (.trailers sid role.flavor fields)] ++
        (if ended then
           [Command.receiveHttp (.endOfMessage sid role.flavor)]
         else []))
  | _ => (c, [Command.log "Ignored unsupported H3 event"])

/-- One step of the `for h3_event in self.h3_conn.handle_event(event)`
loop: thread the adapter state, accumulate the produced commands. -/
def wireStep (role : RoleConfig) (acc : H3Conn × List Command)
    (we : H3WireEvent) : H3Conn × List Command :=
  let q := handleWireEvent role acc.1 we
  (q.1, acc.2 ++ q.2)

/-- The closure reason determined on `ConnectionClosed` (source lines
160-165). -/
def closeMsg : Option ConnCloseInfo → String
  | none => "peer closed connection"
  | some ce =>
    if ce.reason_phrase ≠ "" then ce.reason_phrase
    else error_code_to_str ce.error_code

/-- `Http3Connection._handle_event` in the Active state (source lines
60-171). -/
def handleActive (role : RoleConfig) (s : EngineState) (ev : Event) :
    Except Err (EngineState × List Command) :=
  match ev with
  | .start => .ok (s, [])
  | .http e =>
    match sendHttpEvent s.h3 e with
    | .error m => .ok (s, [Command.log s!"Received event unexpectedly: {m}"])
    | .ok c₂ =>
      let p := c₂.transmit
      .ok ({ s with h3 := p.1 }, p.2)
  | .quicStream wes =>
    let p := wes.foldl (wireStep role) (s.h3, [])
    .ok ({ s with h3 := p.1 }, p.2)
  | .connectionClosed ce =>
    .ok ({ s with closed := true },
         s.h3.reservedStreamIds.map (fun sid =>
           Command.receiveHttp (.protocolError sid role.flavor
             role.defaultErrorCode (closeMsg ce))))
  | .other => .error .assertionError

/-- `Http3Connection.done`: accepted events produce nothing; anything
outside the `@expect` list is an assertion failure. -/
def done (s : EngineState) (ev : Event) :
    Except Err (EngineState × List Command) :=
  if ev.expected then .ok (s, []) else .error .assertionError

/-- `Http3Connection._handle_event`, lifecycle included: once closed,
dispatch goes to `done`. -/
def Http3Connection.handleEvent (role : RoleConfig) (s : EngineState)
    (ev : Event) : Except Err (EngineState × List Command) :=
  if s.closed then done s ev else handleActive role s ev

/-! ### The Client Role (`Http3Client`)

`Http3Client` binds the Response-flavored receive events and wraps the
engine dispatch with logical/physical stream-id translation via its
`our_stream_id` (logical→physical) and `their_stream_id`
(physical→logical) dictionaries. -/

structure ClientState where
  engine : EngineState
  our_stream_id : Nat → Option Nat
  their_stream_id : Nat → Option Nat

/-- The rewrite of one yielded command in `Http3Client._handle_event`'s
`for` loop: a `ReceiveHttp` command has its stream id looked up in
`their_stream_id` (a failing lookup is a `KeyError`); other commands pass
through. -/
def rewriteCmd (theirs : Nat → Option Nat) : Command → Except Err Command
  | .receiveHttp e =>
    match theirs e.streamId with
    | some l => .ok (.receiveHttp (e.setStreamId l))
    | none => .error .keyError
  | c => .ok c

/-- Rewrite all yielded commands through `their_stream_id`, failing at
the first unmapped physical id. -/
def rewriteCmds (theirs : Nat → Option Nat) :
    List Command → Except Err (List Command)
  | [] => .ok []
  | c :: rest =>
    match rewriteCmd theirs c with
    | .error er => .error er
    | .ok c₂ =>
      match rewriteCmds theirs rest with
      | .error er => .error er
      | .ok rest₂ => .ok (c₂ :: rest₂)

/-- The lazy creation of a stream-id mapping on the first event for a
logical id (source lines 241-244): allocate the next available physical
id from the wire adapter (bidirectional) and record the mapping in both
directions. -/
def allocStream (cs : ClientState) (L : Nat) : ClientState :=
  let a := cs.engine.h3.get_next_available_stream_id false
  { engine := { cs.engine with h3 := a.2 },
    our_stream_id := fun l =>
      if l = L then some a.1 else cs.our_stream_id l,
    their_stream_id := fun q =>
      if q = a.1 then some L else cs.their_stream_id q }

/-- `Http3Client._handle_event` (source lines 235-250), parameterized by
`d`, the class-level default code of `ResponseProtocolError` (defined
outside the measured source).  Once the engine has closed, dispatch has
been rebound to `done`, so the wrapper (and in particular the stream-id
allocation) is bypassed. -/
def Http3Client.handleEvent (d : Nat) (cs : ClientState) (ev : Event) :
    Except Err (ClientState × List Command) :=
  if cs.engine.closed then
    match done cs.engine ev with
    | .error er => .error er
    | .ok p => .ok ({ cs with engine := p.1 }, p.2)
  else
    let role : RoleConfig := ⟨Flavor.response, d⟩
    let step : ClientState × Event :=
      match ev with
      | .http e =>
        match cs.our_stream_id e.streamId with
        | some p => (cs, .http (e.setStreamId p))
        | none =>
          (allocStream cs e.streamId,
           .http (e.setStreamId cs.engine.h3.nextAvailableStreamId))
      | _ => (cs, ev)
    match handleActive role step.1.engine step.2 with
    | .error er => .error er
    | .ok p =>
      match rewriteCmds step.1.their_stream_id p.2 with
      | .error er => .error er
      | .ok cmds₂ => .ok ({ step.1 with engine := p.1 }, cmds₂)

/-- Run a sequence of events through the Client Role, threading the
state. -/
def Http3Client.run (d : Nat) (cs : ClientState) :
    List Event → Except Err ClientState
  | [] => .ok cs
  | ev :: rest =>
    match Http3Client.handleEvent d cs ev with
    | .error er => .error er
    | .ok p => Http3Client.run d p.1 rest

/-- The Client Role's initial state: fresh adapter, empty stream-id
maps (`__init__`, source lines 230-233). -/
def ClientState.init (c : H3Conn) : ClientState :=
  { engine := { h3 := c, closed := false },
    our_stream_id := fun _ => none,
    their_stream_id := fun _ => none }

/-! ### Helper lemmas -/

/-- Flushing an already-empty buffer leaves the adapter unchanged. -/
theorem H3Conn.update_buffer_nil (c : H3Conn) (h : c.buffer = []) :
    ({ c with buffer := [] } : H3Conn) = c := by
  cases c
  simp_all

/-! ### Claim theorems -/

/-- Claim C3: composing the outbound mapping (generic status → H3 error
code) with the inbound mapping (H3 error code → generic status) yields
`S` itself when `S = CLIENT_CLOSED_REQUEST`, and yields the role's
default protocol-error code for every other `S` (via
`H3_INTERNAL_ERROR`). -/
theorem error_code_roundtrip (d s : Nat) :
    h3ToStatus d (statusToH3 s) =
      if s = CLIENT_CLOSED_REQUEST then CLIENT_CLOSED_REQUEST else d := by
  by_cases h : s = CLIENT_CLOSED_REQUEST <;>
    simp [statusToH3, h3ToStatus, h, H3_REQUEST_CANCELLED, H3_INTERNAL_ERROR]

/-- Claim C5: a demultiplexed H3 wire event carrying a non-null push id
produces no inbound generic HTTP event, regardless of its shape; the only
effect is a log command, and the state is unchanged. -/
theorem push_events_ignored (role : RoleConfig) (s : EngineState)
    (we : H3WireEvent) (pid : Nat)
    (hA : s.closed = false) (hp : we.pushId = some pid) :
    ∃ m, Http3Connection.handleEvent role s (.quicStream [we]) =
      .ok (s, [Command.log m]) := by
  refine ⟨"Ignored unsupported H3 event", ?_⟩
  obtain ⟨h3s, cl⟩ := s
  dsimp only at hA
  subst hA
  cases we with
  | headersReceived sid p hdrs pe ended =>
    cases p with
    | none => simp [H3WireEvent.pushId] at hp
    | some q =>
      simp [Http3Connection.handleEvent, handleActive, wireStep,
        handleWireEvent]
  | dataReceived sid p bytes ended =>
    cases p with
    | none => simp [H3WireEvent.pushId] at hp
    | some q =>
      simp [Http3Connection.handleEvent, handleActive, wireStep,
        handleWireEvent]
  | trailersReceived sid p fields ended =>
    cases p with
    | none => simp [H3WireEvent.pushId] at hp
    | some q =>
      simp [Http3Connection.handleEvent, handleActive, wireStep,
        handleWireEvent]
  | streamReset sid p ec =>
    cases p with
    | none => simp [H3WireEvent.pushId] at hp
    | some q =>
      simp [Http3Connection.handleEvent, handleActive, wireStep,
        handleWireEvent]
  | unsupported p =>
    simp [Http3Connection.handleEvent, handleActive, wireStep,
      handleWireEvent]

/-- Witness for C5: a concrete HeadersReceived wire event with push id 7
is only logged. -/
theorem push_events_ignored_witness :
    ∃ m, Http3Connection.handleEvent ⟨Flavor.request, 499⟩
      { h3 := { hasEnded := fun _ => false, hasSentHeaders := fun _ => false,
                frameUnexpected := fun _ => false, reservedStreamIds := [],
                nextAvailableStreamId := 0, buffer := [] }, closed := false }
      (.quicStream [.headersReceived 0 (some 7) [] none true]) =
      .ok ({ h3 := { hasEnded := fun _ => false,
                     hasSentHeaders := fun _ => false,
                     frameUnexpected := fun _ => false,
                     reservedStreamIds := [],
                     nextAvailableStreamId := 0, buffer := [] },
             closed := false }, [Command.log m]) :=
  push_events_ignored ⟨Flavor.request, 499⟩ _
    (.headersReceived 0 (some 7) [] none true) 7 rfl rfl

/-- Claim C9: an outbound ProtocolError event for a stream the wire
adapter reports as already fully ended produces nothing: no headers,
data, reset or any other wire command. -/
theorem protocol_error_ended_noop (role : RoleConfig) (s : EngineState)
    (sid code : Nat) (msg : String) (fl : Flavor)
    (hA : s.closed = false) (hEnded : s.h3.hasEnded sid = true)
    (hBuf : s.h3.buffer = []) :
    Http3Connection.handleEvent role s
      (.http (.protocolError sid fl code msg)) = .ok (s, []) := by
  obtain ⟨h3s, cl⟩ := s
  dsimp only at hA hEnded hBuf
  subst hA
  simp [Http3Connection.handleEvent, handleActive, sendHttpEvent,
    hEnded, H3Conn.transmit, hBuf, H3Conn.update_buffer_nil h3s hBuf]

/-- Witness for C9: concrete ended stream 3, nothing is produced. -/
theorem protocol_error_ended_noop_witness :
    Http3Connection.handleEvent ⟨Flavor.response, 502⟩
      { h3 := { hasEnded := fun _ => true, hasSentHeaders := fun _ => false,
                frameUnexpected := fun _ => false, reservedStreamIds := [],
                nextAvailableStreamId := 0, buffer := [] }, closed := false }
      (.http (.protocolError 3 Flavor.response 500 "boom")) =
      .ok ({ h3 := { hasEnded := fun _ => true,
                     hasSentHeaders := fun _ => false,
                     frameUnexpected := fun _ => false,
                     reservedStreamIds := [],
                     nextAvailableStreamId := 0, buffer := [] },
             closed := false }, []) :=
  protocol_error_ended_noop ⟨Flavor.response, 502⟩ _ 3 500 "boom"
    Flavor.response rfl rfl rfl

/-- A concrete wire-adapter state for witnesses: constant oracle answers,
empty buffer. -/
def testConn (ended sent fail : Bool) (reserved : List Nat) : H3Conn :=
  { hasEnded := fun _ => ended, hasSentHeaders := fun _ => sent,
    frameUnexpected := fun _ => fail, reservedStreamIds := reserved,
    nextAvailableStreamId := 0, buffer := [] }

/-- A concrete Active engine state for witnesses. -/
def testState (ended sent fail : Bool) (reserved : List Nat) : EngineState :=
  { h3 := testConn ended sent fail reserved, closed := false }

/-- Claim C6: an inbound HeadersReceived wire event (push id null) whose
header list fails to parse closes the whole connection with
`H3_GENERAL_PROTOCOL_ERROR` and a reason naming the failure, then
flushes, and emits no inbound Headers or EndOfMessage event; on parse
success it emits an inbound Headers event followed by an EndOfMessage
event exactly when end-of-stream was signaled. -/
theorem headers_received_spec (role : RoleConfig) (s : EngineState)
    (sid : Nat) (hdrs : List (String × String)) (ended : Bool)
    (hA : s.closed = false) (hBuf : s.h3.buffer = []) :
    (∀ m, ∃ s₂, Http3Connection.handleEvent role s
        (.quicStream [.headersReceived sid none hdrs (some m) ended]) =
      .ok (s₂, [Command.send (.closeConnection H3_GENERAL_PROTOCOL_ERROR
        s!"Invalid HTTP/3 request headers: {m}")])) ∧
    (∃ s₂, Http3Connection.handleEvent role s
        (.quicStream [.headersReceived sid none hdrs none ended]) =
      .ok (s₂,
        [Command.receiveHttp (.headers sid role.flavor ended hdrs)] ++
        (if ended then
           [Command.receiveHttp (.endOfMessage sid role.flavor)]
         else []))) := by
  obtain ⟨⟨he, hsh, fu, rs, na, buf⟩, cl⟩ := s
  dsimp only at hA hBuf
  subst hA hBuf
  constructor
  · intro m
    exact ⟨_, rfl⟩
  · exact ⟨_, rfl⟩

/-- Witness for C6: a concrete malformed header list closes the
connection; a concrete good one yields Headers then EndOfMessage. -/
theorem headers_received_spec_witness :
    (∃ s₂, Http3Connection.handleEvent ⟨Flavor.request, 499⟩
        (testState false false false [])
        (.quicStream [.headersReceived 0 none [] (some "bad") true]) =
      .ok (s₂, [Command.send (.closeConnection H3_GENERAL_PROTOCOL_ERROR
        "Invalid HTTP/3 request headers: bad")])) ∧
    (∃ s₂, Http3Connection.handleEvent ⟨Flavor.request, 499⟩
        (testState false false false [])
        (.quicStream [.headersReceived 0 none [] none true]) =
      .ok (s₂,
        [Command.receiveHttp (.headers 0 Flavor.request true []),
         Command.receiveHttp (.endOfMessage 0 Flavor.request)])) := by
  have h := headers_received_spec ⟨Flavor.request, 499⟩
    (testState false false false []) 0 [] true rfl rfl
  exact ⟨h.1 "bad", by simpa using h.2⟩

/-- Claim C7: an outbound HttpEvent whose wire send raises
`H3FrameUnexpected` produces only a log command (the event is dropped, no
wire command, no flush, the connection stays Active); an outbound
HttpEvent handled without that condition is followed by a flush of the
buffered wire output. -/
theorem http_event_send_result (role : RoleConfig) (s : EngineState)
    (e : HttpEv) (hA : s.closed = false) :
    (∀ m, sendHttpEvent s.h3 e = .error m →
       Http3Connection.handleEvent role s (.http e) =
         .ok (s, [Command.log s!"Received event unexpectedly: {m}"])) ∧
    (∀ c₂, sendHttpEvent s.h3 e = .ok c₂ →
       Http3Connection.handleEvent role s (.http e) =
         .ok ({ s with h3 := { c₂ with buffer := [] } },
              c₂.buffer.map Command.send)) := by
  constructor
  · intro m hm
    simp [Http3Connection.handleEvent, hA, handleActive, hm]
  · intro c₂ hc
    simp [Http3Connection.handleEvent, hA, handleActive, hc,
      H3Conn.transmit]

/-- Witness for C7: on a stream whose state forbids the frame the send is
dropped with only a log; on a healthy stream a data event is flushed into
exactly its wire transmission. -/
theorem http_event_send_result_witness :
    (∃ m, Http3Connection.handleEvent ⟨Flavor.request, 499⟩
        (testState false false true []) (.http (.data 0 .request "x")) =
      .ok (testState false false true [], [Command.log m])) ∧
    (∃ s₂, Http3Connection.handleEvent ⟨Flavor.request, 499⟩
        (testState false false false []) (.http (.data 0 .request "x")) =
      .ok (s₂, [Command.send (.sendData 0 "x" false)])) := by
  constructor
  · exact ⟨_, (http_event_send_result ⟨Flavor.request, 499⟩
      (testState false false true []) (.data 0 .request "x") rfl).1
      "H3FrameUnexpected" rfl⟩
  · exact ⟨_, (http_event_send_result ⟨Flavor.request, 499⟩
      (testState false false false []) (.data 0 .request "x") rfl).2
      { testConn false false false [] with
        buffer := [.sendData 0 "x" false] } rfl⟩

/-- Claim C4: an outbound Response-flavored ProtocolError on a stream that
has not fully ended sends a synthesized error response (headers
`:status=<code>`, `server`, `content-type: text/html`, then an HTML body
ending the stream) and no reset, when no headers have been sent and the
code is not the sentinel; otherwise (headers already sent, sentinel code,
or Request-flavored error) it resets the stream with the mapped H3 error
code and sends no response. -/
theorem protocol_error_response_spec (role : RoleConfig) (s : EngineState)
    (sid code : Nat) (msg : String)
    (hA : s.closed = false) (hEnded : s.h3.hasEnded sid = false)
    (hOk : s.h3.frameUnexpected sid = false) (hBuf : s.h3.buffer = []) :
    ((s.h3.hasSentHeaders sid = false ∧ code ≠ NO_RESPONSE) →
      ∃ s₂, Http3Connection.handleEvent role s
          (.http (.protocolError sid Flavor.response code msg)) =
        .ok (s₂,
          [Command.send (.sendHeaders sid
             [(":status", toString code), ("server", MITMPROXY),
              ("content-type", "text/html")] false),
           Command.send (.sendData sid (format_error code msg) true)])) ∧
    ((s.h3.hasSentHeaders sid = true ∨ code = NO_RESPONSE) →
      ∃ s₂, Http3Connection.handleEvent role s
          (.http (.protocolError sid Flavor.response code msg)) =
        .ok (s₂, [Command.send (.resetStream sid (statusToH3 code))])) ∧
    (∃ s₂, Http3Connection.handleEvent role s
        (.http (.protocolError sid Flavor.request code msg)) =
      .ok (s₂, [Command.send (.resetStream sid (statusToH3 code))])) := by
  obtain ⟨⟨he, hsh, fu, rs, na, buf⟩, cl⟩ := s
  dsimp only at hA hEnded hOk hBuf
  subst hA hBuf
  refine ⟨fun h => ?_, fun h => ?_, ?_⟩
  · dsimp only at h
    simp [Http3Connection.handleEvent, handleActive, sendHttpEvent,
      hEnded, h.1, h.2, H3Conn.sendOn, hOk, H3Conn.transmit]
  · rcases h with h | h
    · dsimp only at h
      simp [Http3Connection.handleEvent, handleActive, sendHttpEvent,
        hEnded, h, H3Conn.sendOn, hOk, H3Conn.transmit]
    · subst h
      simp [Http3Connection.handleEvent, handleActive, sendHttpEvent,
        hEnded, H3Conn.sendOn, hOk, H3Conn.transmit]
  · simp [Http3Connection.handleEvent, handleActive, sendHttpEvent,
      hEnded, H3Conn.sendOn, hOk, H3Conn.transmit]

/-- Witness for C4: a concrete 500 response error with no headers sent
produces the synthesized response; one with headers already sent produces
a raw reset. -/
theorem protocol_error_response_spec_witness :
    (∃ s₂, Http3Connection.handleEvent ⟨Flavor.response, 502⟩
        (testState false false false [])
        (.http (.protocolError 3 Flavor.response 500 "boom")) =
      .ok (s₂,
        [Command.send (.sendHeaders 3
           [(":status", "500"), ("server", MITMPROXY),
            ("content-type", "text/html")] false),
         Command.send (.sendData 3 (format_error 500 "boom") true)])) ∧
    (∃ s₂, Http3Connection.handleEvent ⟨Flavor.response, 502⟩
        (testState false true false [])
        (.http (.protocolError 3 Flavor.response 500 "boom")) =
      .ok (s₂, [Command.send (.resetStream 3 H3_INTERNAL_ERROR)])) := by
  constructor
  · have h := (protocol_error_response_spec ⟨Flavor.response, 502⟩
      (testState false false false []) 3 500 "boom" rfl rfl rfl rfl).1
      ⟨rfl, by decide⟩
    simpa using h
  · have h := (protocol_error_response_spec ⟨Flavor.response, 502⟩
      (testState false true false []) 3 500 "boom" rfl rfl rfl rfl).2.1
      (Or.inl rfl)
    simpa [statusToH3, CLIENT_CLOSED_REQUEST, H3_INTERNAL_ERROR] using h

/-- Claim C1: a connection-closed notification received while Active
emits exactly one inbound ProtocolError event (carrying the determined
closure reason) for each stream id the wire adapter still reports as
reserved, nothing else; after the transition every subsequent
notification of the three expected shapes produces no commands and no
generic events. -/
theorem connection_closed_terminal (role : RoleConfig) (s : EngineState)
    (ce : Option ConnCloseInfo)
    (hA : s.closed = false) (hnd : s.h3.reservedStreamIds.Nodup) :
    ∃ s₂ cmds,
      Http3Connection.handleEvent role s (.connectionClosed ce) =
        .ok (s₂, cmds) ∧
      (∀ sid ∈ s.h3.reservedStreamIds,
        List.count (Command.receiveHttp (.protocolError sid role.flavor
          role.defaultErrorCode (closeMsg ce))) cmds = 1) ∧
      (∀ c ∈ cmds, ∃ sid ∈ s.h3.reservedStreamIds,
        c = Command.receiveHttp (.protocolError sid role.flavor
          role.defaultErrorCode (closeMsg ce))) ∧
      s₂.closed = true ∧
      (∀ ev, ev.expected = true →
        Http3Connection.handleEvent role s₂ ev = .ok (s₂, [])) := by
  obtain ⟨⟨he, hsh, fu, rs, na, buf⟩, cl⟩ := s
  dsimp only at hA hnd
  subst hA
  refine ⟨_, _, rfl, ?_, ?_, rfl, ?_⟩
  · intro sid hsid
    have hinj : Function.Injective (fun sid : Nat =>
        Command.receiveHttp (.protocolError sid role.flavor
          role.defaultErrorCode (closeMsg ce))) := by
      intro a b hab
      simpa using hab
    have := List.count_map_of_injective (l := rs) (f := fun sid : Nat =>
        Command.receiveHttp (.protocolError sid role.flavor
          role.defaultErrorCode (closeMsg ce))) hinj sid
    simpa [this] using List.count_eq_one_of_mem hnd hsid
  · intro c hc
    obtain ⟨sid, hsid, hceq⟩ := List.mem_map.mp hc
    exact ⟨sid, hsid, hceq.symm⟩
  · intro ev hev
    simp [Http3Connection.handleEvent, done, hev]

/-- Witness for C1: with streams 2 and 4 still reserved, closing emits
exactly one ProtocolError for each, and a later wire notification
produces nothing. -/
theorem connection_closed_terminal_witness :
    ∃ s₂ cmds,
      Http3Connection.handleEvent ⟨Flavor.request, 499⟩
        (testState false false false [2, 4]) (.connectionClosed none) =
        .ok (s₂, cmds) ∧
      (∀ sid ∈ [2, 4],
        List.count (Command.receiveHttp (.protocolError sid Flavor.request
          499 (closeMsg none))) cmds = 1) ∧
      (∀ c ∈ cmds, ∃ sid ∈ [2, 4],
        c = Command.receiveHttp (.protocolError sid Flavor.request
          499 (closeMsg none))) ∧
      s₂.closed = true ∧
      (∀ ev, ev.expected = true →
        Http3Connection.handleEvent ⟨Flavor.request, 499⟩ s₂ ev =
          .ok (s₂, [])) :=
  connection_closed_terminal ⟨Flavor.request, 499⟩
    (testState false false false [2, 4]) none rfl (by decide)

/-! ### Client Role invariants -/

/-- The two stream-id maps are exact inverses. -/
def MapsInverse (cs : ClientState) : Prop :=
  (∀ l p, cs.our_stream_id l = some p → cs.their_stream_id p = some l) ∧
  (∀ p l, cs.their_stream_id p = some l → cs.our_stream_id l = some p)

/-- Every allocated physical id lies below the allocator's next id. -/
def FreshAlloc (cs : ClientState) : Prop :=
  ∀ l p, cs.our_stream_id l = some p →
    p < cs.engine.h3.nextAvailableStreamId

/-- The inductive invariant of the Client Role. -/
def GoodMaps (cs : ClientState) : Prop := MapsInverse cs ∧ FreshAlloc cs

theorem sendOn_nextAvailable (c : H3Conn) (sid : Nat) (w : WireCmd)
    (c₂ : H3Conn) (h : c.sendOn sid w = .ok c₂) :
    c₂.nextAvailableStreamId = c.nextAvailableStreamId := by
  unfold H3Conn.sendOn at h
  split at h
  · simp at h
  · injection h with h2
    rw [← h2]

theorem sendHttpEvent_nextAvailable (c : H3Conn) (e : HttpEv)
    (c₂ : H3Conn) (h : sendHttpEvent c e = .ok c₂) :
    c₂.nextAvailableStreamId = c.nextAvailableStreamId := by
  unfold sendHttpEvent at h
  cases e with
  | data sid fl b => exact sendOn_nextAvailable _ _ _ _ h
  | headers sid fl es hs => exact sendOn_nextAvailable _ _ _ _ h
  | trailers sid fl f => exact sendOn_nextAvailable _ _ _ _ h
  | endOfMessage sid fl => exact sendOn_nextAvailable _ _ _ _ h
  | protocolError sid fl code msg =>
    dsimp only at h
    split at h
    · injection h with h2
      rw [← h2]
    · split at h
      · split at h
        · simp at h
        · rename_i c₁ hc₁
          have h1 := sendOn_nextAvailable _ _ _ _ hc₁
          have h2 := sendOn_nextAvailable _ _ _ _ h
          rw [h2, h1]
      · exact sendOn_nextAvailable _ _ _ _ h

theorem handleWireEvent_nextAvailable (role : RoleConfig) (c : H3Conn)
    (we : H3WireEvent) :
    (handleWireEvent role c we).1.nextAvailableStreamId =
      c.nextAvailableStreamId := by
  cases we with
  | headersReceived sid p hdrs pe ended =>
    cases p with
    | none => cases pe with
      | none => rfl
      | some m => rfl
    | some q => rfl
  | dataReceived sid p bytes ended =>
    cases p with
    | none => rfl
    | some q => rfl
  | trailersReceived sid p fields ended =>
    cases p with
    | none => rfl
    | some q => rfl
  | streamReset sid p ec =>
    cases p with
    | none => rfl
    | some q => rfl
  | unsupported p => rfl

theorem wireFold_nextAvailable (role : RoleConfig)
    (wes : List H3WireEvent) (acc : H3Conn × List Command) :
    (wes.foldl (wireStep role) acc).1.nextAvailableStreamId =
      acc.1.nextAvailableStreamId := by
  induction wes generalizing acc with
  | nil => rfl
  | cons we rest ih =>
    rw [List.foldl_cons, ih]
    exact handleWireEvent_nextAvailable role acc.1 we

/-- `handleActive` never touches the allocator. -/
theorem handleActive_nextAvailable (role : RoleConfig) (s : EngineState)
    (ev : Event) (s₂ : EngineState) (cmds : List Command)
    (h : handleActive role s ev = .ok (s₂, cmds)) :
    s₂.h3.nextAvailableStreamId = s.h3.nextAvailableStreamId := by
  cases ev with
  | start =>
    unfold handleActive at h
    injection h with h2
    rw [show s₂ = s from congrArg Prod.fst h2.symm]
  | http e =>
    unfold handleActive at h
    dsimp only at h
    split at h
    · injection h with h2
      rw [show s₂ = s from congrArg Prod.fst h2.symm]
    · rename_i c₂ hc₂
      injection h with h2
      have hs : s₂ = { s with h3 := c₂.transmit.1 } :=
        congrArg Prod.fst h2.symm
      rw [hs]
      exact sendHttpEvent_nextAvailable s.h3 e c₂ hc₂
  | quicStream wes =>
    unfold handleActive at h
    injection h with h2
    have hs : s₂ =
        { s with h3 := (wes.foldl (wireStep role) (s.h3, [])).1 } :=
      congrArg Prod.fst h2.symm
    rw [hs]
    exact wireFold_nextAvailable role wes (s.h3, [])
  | connectionClosed ce =>
    unfold handleActive at h
    injection h with h2
    rw [show s₂ = { s with closed := true } from congrArg Prod.fst h2.symm]
  | other =>
    unfold handleActive at h
    simp at h

/-- Allocating a mapping for a fresh logical id preserves the
invariant. -/
theorem goodMaps_alloc (cs : ClientState) (L : Nat)
    (hg : GoodMaps cs) (hNone : cs.our_stream_id L = none) :
    GoodMaps (allocStream cs L) := by
  obtain ⟨⟨hfwd, hbwd⟩, hfresh⟩ := hg
  refine ⟨⟨?_, ?_⟩, ?_⟩
  · intro l p hl
    by_cases hL : l = L
    · subst hL
      simp [allocStream, H3Conn.get_next_available_stream_id] at hl ⊢
      simp [← hl]
    · simp [allocStream, H3Conn.get_next_available_stream_id, hL] at hl ⊢
      have hlt := hfresh l p hl
      have hne : p ≠ cs.engine.h3.nextAvailableStreamId := Nat.ne_of_lt hlt
      simp [hne]
      exact hfwd l p hl
  · intro p l hp
    by_cases hP : p = cs.engine.h3.nextAvailableStreamId
    · subst hP
      simp [allocStream, H3Conn.get_next_available_stream_id] at hp ⊢
      simp [← hp]
    · simp [allocStream, H3Conn.get_next_available_stream_id, hP] at hp ⊢
      have ho := hbwd p l hp
      have hlL : l ≠ L := by
        intro hEq
        rw [hEq, hNone] at ho
        cases ho
      simp [hlL]
      exact ho
  · intro l p hl
    by_cases hL : l = L
    · subst hL
      simp [allocStream, H3Conn.get_next_available_stream_id] at hl ⊢
      omega
    · simp [allocStream, H3Conn.get_next_available_stream_id, hL] at hl ⊢
      have := hfresh l p hl
      omega

/-- An engine-only update that keeps the allocator preserves the
invariant. -/
theorem goodMaps_engine_update (cs : ClientState) (es : EngineState)
    (hna : es.h3.nextAvailableStreamId =
      cs.engine.h3.nextAvailableStreamId)
    (hg : GoodMaps cs) : GoodMaps { cs with engine := es } := by
  refine ⟨hg.1, ?_⟩
  intro l p hl
  show p < es.h3.nextAvailableStreamId
  rw [hna]
  exact hg.2 l p hl

/-- One handled event preserves the invariant and never removes an
entry. -/
theorem goodMaps_step (d : Nat) (cs cs₂ : ClientState) (ev : Event)
    (cmds : List Command) (hg : GoodMaps cs)
    (h : Http3Client.handleEvent d cs ev = .ok (cs₂, cmds)) :
    GoodMaps cs₂ ∧
    (∀ l p, cs.our_stream_id l = some p → cs₂.our_stream_id l = some p) ∧
    (∀ p l, cs.their_stream_id p = some l →
      cs₂.their_stream_id p = some l) := by
  unfold Http3Client.handleEvent at h
  split at h
  · -- engine already closed: `done`, nothing changes
    unfold done at h
    split at h
    · simp at h
    · rename_i pr hpr
      injection h with h2
      have hcs : cs₂ = { cs with engine := pr.1 } :=
        (congrArg Prod.fst h2).symm
      subst hcs
      split at hpr
      · injection hpr with hpr2
        refine ⟨goodMaps_engine_update cs pr.1 ?_ hg,
          fun l p hp => hp, fun p l hp => hp⟩
        rw [show pr.1 = cs.engine from congrArg Prod.fst hpr2.symm]
      · simp at hpr
  · -- Active
    cases ev with
    | http e =>
      dsimp only at h
      rcases hmap : cs.our_stream_id e.streamId with _ | p0 <;>
        rw [hmap] at h <;> dsimp only at h
      · -- no mapping yet: allocation
        split at h
        · simp at h
        · rename_i pr hpr
          split at h
          · simp at h
          · rename_i cmds₂ hcmds₂
            injection h with h2
            have hcs : cs₂ = { allocStream cs e.streamId with
                engine := pr.1 } :=
              (congrArg Prod.fst h2).symm
            subst hcs
            have hna := handleActive_nextAvailable _ _ _ _ _ hpr
            refine ⟨goodMaps_engine_update (allocStream cs e.streamId)
              pr.1 hna (goodMaps_alloc cs e.streamId hg hmap), ?_, ?_⟩
            · intro l p hl
              show (allocStream cs e.streamId).our_stream_id l = some p
              unfold allocStream
              dsimp only
              by_cases hL : l = e.streamId
              · rw [hL, hmap] at hl
                cases hl
              · simp only [hL, if_false]
                exact hl
            · intro p l hp
              show (allocStream cs e.streamId).their_stream_id p = some l
              unfold allocStream H3Conn.get_next_available_stream_id
              dsimp only
              by_cases hP : p = cs.engine.h3.nextAvailableStreamId
              · exfalso
                have ho := hg.1.2 p l hp
                have := hg.2 l p ho
                omega
              · simp only [hP, if_false]
                exact hp
      · -- mapping exists: maps unchanged
        split at h
        · simp at h
        · rename_i pr hpr
          split at h
          · simp at h
          · rename_i cmds₂ hcmds₂
            injection h with h2
            have hcs : cs₂ = { cs with engine := pr.1 } :=
              (congrArg Prod.fst h2).symm
            subst hcs
            have hna := handleActive_nextAvailable _ _ _ _ _ hpr
            exact ⟨goodMaps_engine_update cs pr.1 hna hg,
              fun l p hp => hp, fun p l hp => hp⟩
    | start =>
      dsimp only at h
      split at h
      · simp at h
      · rename_i pr hpr
        split at h
        · simp at h
        · rename_i cmds₂ hcmds₂
          injection h with h2
          have hcs : cs₂ = { cs with engine := pr.1 } :=
            (congrArg Prod.fst h2).symm
          subst hcs
          have hna := handleActive_nextAvailable _ _ _ _ _ hpr
          exact ⟨goodMaps_engine_update cs pr.1 hna hg,
            fun l p hp => hp, fun p l hp => hp⟩
    | quicStream wes =>
      dsimp only at h
      split at h
      · simp at h
      · rename_i pr hpr
        split at h
        · simp at h
        · rename_i cmds₂ hcmds₂
          injection h with h2
          have hcs : cs₂ = { cs with engine := pr.1 } :=
            (congrArg Prod.fst h2).symm
          subst hcs
          have hna := handleActive_nextAvailable _ _ _ _ _ hpr
          exact ⟨goodMaps_engine_update cs pr.1 hna hg,
            fun l p hp => hp, fun p l hp => hp⟩
    | connectionClosed ce =>
      dsimp only at h
      split at h
      · simp at h
      · rename_i pr hpr
        split at h
        · simp at h
        · rename_i cmds₂ hcmds₂
          injection h with h2
          have hcs : cs₂ = { cs with engine := pr.1 } :=
            (congrArg Prod.fst h2).symm
          subst hcs
          have hna := handleActive_nextAvailable _ _ _ _ _ hpr
          exact ⟨goodMaps_engine_update cs pr.1 hna hg,
            fun l p hp => hp, fun p l hp => hp⟩
    | other =>
      dsimp only at h
      split at h
      · simp at h
      · rename_i pr hpr
        exact absurd hpr (by simp [handleActive])

/-- Any run of handled events preserves the invariant and never removes
an entry. -/
theorem goodMaps_run (d : Nat) (evs : List Event) (cs cs₂ : ClientState)
    (hg : GoodMaps cs) (h : Http3Client.run d cs evs = .ok cs₂) :
    GoodMaps cs₂ ∧
    (∀ l p, cs.our_stream_id l = some p → cs₂.our_stream_id l = some p) ∧
    (∀ p l, cs.their_stream_id p = some l →
      cs₂.their_stream_id p = some l) := by
  induction evs generalizing cs with
  | nil =>
    unfold Http3Client.run at h
    injection h with h2
    subst h2
    exact ⟨hg, fun l p hp => hp, fun p l hp => hp⟩
  | cons ev rest ih =>
    unfold Http3Client.run at h
    split at h
    · simp at h
    · rename_i pr hpr
      obtain ⟨hg₂, m1, m2⟩ := goodMaps_step d cs pr.1 ev pr.2 hg hpr
      obtain ⟨hgf, n1, n2⟩ := ih pr.1 hg₂ h
      exact ⟨hgf, fun l p hp => n1 l p (m1 l p hp),
        fun p l hp => n2 p l (m2 p l hp)⟩

/-- Claim C2: for the Client Role, after any sequence of handled events
from the initial state, `our_stream_id` and `their_stream_id` are exact
inverses, and a further handled event never removes an entry. -/
theorem client_stream_maps_inverse (d : Nat) (c0 : H3Conn)
    (evs : List Event) (cs₂ : ClientState)
    (h : Http3Client.run d (ClientState.init c0) evs = .ok cs₂) :
    ((∀ l p, cs₂.our_stream_id l = some p →
        cs₂.their_stream_id p = some l) ∧
     (∀ p l, cs₂.their_stream_id p = some l →
        cs₂.our_stream_id l = some p)) ∧
    (∀ ev cs₃ cmds, Http3Client.handleEvent d cs₂ ev = .ok (cs₃, cmds) →
      (∀ l p, cs₂.our_stream_id l = some p →
        cs₃.our_stream_id l = some p) ∧
      (∀ p l, cs₂.their_stream_id p = some l →
        cs₃.their_stream_id p = some l)) := by
  have hg0 : GoodMaps (ClientState.init c0) := by
    refine ⟨⟨?_, ?_⟩, ?_⟩
    · intro l p hp
      exact Option.noConfusion hp
    · intro p l hp
      exact Option.noConfusion hp
    · intro l p hp
      exact Option.noConfusion hp
  obtain ⟨hg₂, _, _⟩ := goodMaps_run d evs (ClientState.init c0) cs₂ hg0 h
  refine ⟨hg₂.1, ?_⟩
  intro ev cs₃ cmds hstep
  obtain ⟨_, m1, m2⟩ := goodMaps_step d cs₂ cs₃ ev cmds hg₂ hstep
  exact ⟨m1, m2⟩

/-- Witness for C2: a concrete two-event run (headers then data on
logical stream 5) ends with inverse maps. -/
theorem client_stream_maps_inverse_witness :
    ∃ cs₂, Http3Client.run 502
        (ClientState.init (testConn false false false []))
        [.http (.headers 5 .request true []), .http (.data 5 .request "x")]
        = .ok cs₂ ∧
      ((∀ l p, cs₂.our_stream_id l = some p →
          cs₂.their_stream_id p = some l) ∧
       (∀ p l, cs₂.their_stream_id p = some l →
          cs₂.our_stream_id l = some p)) :=
  ⟨_, rfl, (client_stream_maps_inverse 502 (testConn false false false [])
    [.http (.headers 5 .request true []), .http (.data 5 .request "x")]
    _ rfl).1⟩

/-- Claim C8: the first outbound HttpEvent carrying an unmapped logical
stream id allocates the next available physical id, records the mapping
in both directions, and delegates the event to the engine with its
stream id rewritten to the physical id; every inbound generic event the
engine yields is rewritten from physical back to logical before
delivery. -/
theorem client_allocates_and_rewrites (d : Nat) (cs : ClientState)
    (e : HttpEv) (cs₂ : ClientState) (cmds : List Command)
    (hA : cs.engine.closed = false)
    (hNone : cs.our_stream_id e.streamId = none)
    (h : Http3Client.handleEvent d cs (.http e) = .ok (cs₂, cmds)) :
    cs₂.our_stream_id e.streamId =
      some cs.engine.h3.nextAvailableStreamId ∧
    cs₂.their_stream_id cs.engine.h3.nextAvailableStreamId =
      some e.streamId ∧
    ∃ pr, handleActive ⟨Flavor.response, d⟩
        (allocStream cs e.streamId).engine
        (.http (e.setStreamId cs.engine.h3.nextAvailableStreamId)) =
        .ok pr ∧
      rewriteCmds (allocStream cs e.streamId).their_stream_id pr.2 =
        .ok cmds ∧
      cs₂.engine = pr.1 := by
  unfold Http3Client.handleEvent at h
  split at h
  · rename_i hcl
    rw [hA] at hcl
    exact Bool.noConfusion hcl
  · dsimp only at h
    rw [hNone] at h
    dsimp only at h
    split at h
    · simp at h
    · rename_i pr hpr
      split at h
      · simp at h
      · rename_i cmds₂ hcmds₂
        injection h with h2
        have hcs : cs₂ = { allocStream cs e.streamId with engine := pr.1 } :=
          (congrArg Prod.fst h2).symm
        have hcm : cmds₂ = cmds := congrArg Prod.snd h2
        subst hcs
        refine ⟨?_, ?_, pr, hpr, ?_, rfl⟩
        · show (allocStream cs e.streamId).our_stream_id e.streamId = _
          simp [allocStream, H3Conn.get_next_available_stream_id]
        · show (allocStream cs e.streamId).their_stream_id _ = _
          simp [allocStream, H3Conn.get_next_available_stream_id]
        · rw [← hcm]
          exact hcmds₂

/-- Witness for C8: a first data event on logical stream 5 allocates
physical id 0, records 5↔0, and sends the wire data on stream 0. -/
theorem client_allocates_and_rewrites_witness :
    ∃ cs₂ cmds, Http3Client.handleEvent 502
        (ClientState.init (testConn false false false []))
        (.http (.data 5 .request "x")) = .ok (cs₂, cmds) ∧
      cs₂.our_stream_id 5 = some 0 ∧ cs₂.their_stream_id 0 = some 5 ∧
      cmds = [Command.send (.sendData 0 "x" false)] :=
  ⟨_, _, rfl,
    (client_allocates_and_rewrites 502
      (ClientState.init (testConn false false false []))
      (.data 5 .request "x") _ _ rfl rfl rfl).1,
    (client_allocates_and_rewrites 502
      (ClientState.init (testConn false false false []))
      (.data 5 .request "x") _ _ rfl rfl rfl).2.1,
    rfl⟩

/-- Claim C10: the inverse stream-id lookup applied to inbound generic
events is partial: an inbound event on a physical id never recorded in
`their_stream_id` makes dispatch fail with a KeyError instead of
delivering the event; delivery succeeds for recorded ids, rewritten to
the logical id. -/
theorem client_unmapped_inbound_keyerror (d : Nat) (cs : ClientState)
    (sid L : Nat) (bytes : String)
    (hA : cs.engine.closed = false) (hB : bytes ≠ "") :
    (cs.their_stream_id sid = none →
      Http3Client.handleEvent d cs
        (.quicStream [.dataReceived sid none bytes false]) =
        .error .keyError) ∧
    (cs.their_stream_id sid = some L →
      Http3Client.handleEvent d cs
        (.quicStream [.dataReceived sid none bytes false]) =
        .ok (cs, [Command.receiveHttp (.data L Flavor.response bytes)])) := by
  obtain ⟨⟨⟨he, hsh, fu, rs, na, buf⟩, cl⟩, ours, theirs⟩ := cs
  dsimp only at hA
  subst hA
  constructor
  · intro h
    dsimp only at h
    simp [Http3Client.handleEvent, handleActive, wireStep,
      handleWireEvent, hB, rewriteCmds, rewriteCmd, HttpEv.streamId, h]
  · intro h
    dsimp only at h
    simp [Http3Client.handleEvent, handleActive, wireStep,
      handleWireEvent, hB, rewriteCmds, rewriteCmd, HttpEv.streamId, h,
      HttpEv.setStreamId]

/-- Witness for C10: with an empty map, an inbound data event on
physical stream 0 fails with KeyError; once 0 is mapped to 5, it is
delivered as logical stream 5. -/
theorem client_unmapped_inbound_keyerror_witness :
    (Http3Client.handleEvent 502
        (ClientState.init (testConn false false false []))
        (.quicStream [.dataReceived 0 none "x" false]) =
      .error .keyError) ∧
    (Http3Client.handleEvent 502
        (allocStream (ClientState.init (testConn false false false [])) 5)
        (.quicStream [.dataReceived 0 none "x" false]) =
      .ok (allocStream (ClientState.init (testConn false false false [])) 5,
        [Command.receiveHttp (.data 5 Flavor.response "x")])) :=
  ⟨(client_unmapped_inbound_keyerror 502
      (ClientState.init (testConn false false false [])) 0 5 "x"
      rfl (by decide)).1 rfl,
   (client_unmapped_inbound_keyerror 502
      (allocStream (ClientState.init (testConn false false false [])) 5)
      0 5 "x" rfl (by decide)).2 rfl⟩

end Http3
